import Mathlib

/-
Shallow embedding of `src/backend/app.py`, a Flask + SQLAlchemy CRUD API for
task records.  Each route handler becomes a pure Lean function over an explicit
store state; exceptions inside a handler's `try` block become `Except Exc`, and
the `except Exception` clause becomes the catch in the outer wrapper.

Modelling decisions, each traced to the source:
* `request.get_json()` is an `Option Body` argument: `none` models a request
  with no parseable JSON body (Flask returns `None` when the content type is
  not JSON), `some d` a JSON object as an association list of string key/value
  pairs (dict keys are unique; lookups take the first occurrence).  For the
  PUT handler, whose behavior on non-object bodies matters, the body domain
  is additionally generalized to arbitrary JSON values (`Json`): `get_json`
  may also return a list, a string or a number, on which Python membership
  and indexing behave differently.  `update_task_json` is that
  generalization; it restricts to `update_task` on missing and object bodies.
* Timestamps are abstract `Nat` clock readings; each request carries one `now`
  (`datetime.utcnow` at second granularity).
* `Task.query.get_or_404` raises `werkzeug.exceptions.NotFound`, which IS a
  subclass of `Exception`; inside the `try` of `update_task`/`delete_task` it
  is therefore caught by `except Exception` and turned into a 500 response.
  In `get_task` there is no `try`, so the framework renders it as 404.
* A storage failure at `db.session.commit()` is injected through a
  `fail : Option String` argument (`some msg` = the commit raises an exception
  with message `msg`); `db.session.rollback()` means the returned store is the
  pre-request store.
* SQLAlchemy only emits an UPDATE (and hence only fires the
  `onupdate=datetime.utcnow` refresh of `updated_at`) when some column has a
  net value change at flush time; this is the `fieldsChanged` test in
  `update_task`.
-/

namespace TaskApp

/-- JSON body of a request: an association list of string keys and values,
modelling the dict returned by `request.get_json()`. -/
abbrev Body := List (String × String)

/-- Whether key `k` occurs in the JSON object, i.e. Python `k in data`. -/
def hasKey (d : Body) (k : String) : Bool :=
  d.any (fun p => p.1 == k)

/-- Value of key `k` in the JSON object, i.e. Python `data[k]` resp.
`data.get(k)`; first occurrence wins, as dict keys are unique. -/
def getKey (d : Body) (k : String) : Option String :=
  (d.find? (fun p => p.1 == k)).map Prod.snd

/-- Python `data.get(k, default)`. -/
def getD (d : Body) (k : String) (default : String) : String :=
  (getKey d k).getD default

/-- The `Task` model of `app.py` (class Task, lines 27-45): one row of the
`tasks` table.  `id` is the integer primary key; `title`, `description` and
`status` are the text columns; `created_at` and `updated_at` are the
timestamp columns, as abstract clock readings. -/
structure Task where
  id : Nat
  title : String
  description : String
  status : String
  created_at : Nat
  updated_at : Nat
deriving Repr, DecidableEq

/-- The persistence layer state: the rows of the `tasks` table plus the next
auto-increment value of the primary key sequence (PostgreSQL serial columns
start at 1). -/
structure Store where
  nextId : Nat
  tasks : List Task
deriving Repr, DecidableEq

/-- The store of a fresh database after `db.create_all()`: no rows, identity
sequence at 1. -/
def initStore : Store := ⟨1, []⟩

/-- Look up a row by primary key: `Task.query.get(task_id)`. -/
def findTask (s : Store) (id : Nat) : Option Task :=
  s.tasks.find? (fun t => t.id == id)

/-- Replace the row whose `id` matches `t.id` by `t`: the effect of committing
an in-place mutation of the ORM object. -/
def replaceTask (s : Store) (t : Task) : Store :=
  { s with tasks := s.tasks.map (fun u => if u.id == t.id then t else u) }

/-- Exceptions that can be raised inside a handler's `try` block. -/
inductive Exc
  /-- `werkzeug.exceptions.NotFound` raised by `Task.query.get_or_404`. -/
  | notFound
  /-- `TypeError` raised by `k in data` when `data` is `None`. -/
  | badBodyType
  /-- `TypeError` raised by `k in data` when `data` is an int. -/
  | intNotIterable
  /-- `TypeError` raised by `data[k]` when `data` is a list. -/
  | listIndexStr
  /-- `TypeError` raised by `data[k]` when `data` is a string. -/
  | strIndexStr
  /-- `TypeError` raised by `data[k]` when `data` is an int (unreachable in
  the handler, since membership on an int raises first). -/
  | intNotSubscriptable
  /-- an exception raised by the storage layer at commit, carrying `str(e)`. -/
  | storage (msg : String)
deriving Repr, DecidableEq

/-- Python `str(e)` for each modelled exception. -/
def Exc.toMsg : Exc → String
  | .notFound => "404 Not Found: The requested URL was not found on the server."
  | .badBodyType => "argument of type NoneType is not iterable"
  | .intNotIterable => "argument of type int is not iterable"
  | .listIndexStr => "list indices must be integers or slices, not str"
  | .strIndexStr => "string indices must be integers"
  | .intNotSubscriptable => "int object is not subscriptable"
  | .storage m => m

/-- JSON payload of a response, as produced by the `jsonify(...)` calls. -/
inductive Payload
  /-- `jsonify(task.to_dict())`. -/
  | task (t : Task)
  /-- `jsonify([task.to_dict() for task in tasks])`. -/
  | tasks (ts : List Task)
  /-- `jsonify(\x7b'error': msg\x7d)`. -/
  | error (msg : String)
  /-- `jsonify(\x7b'message': msg\x7d)`. -/
  | message (msg : String)
  /-- `jsonify(\x7b'status': 'healthy', 'timestamp': ...\x7d)`. -/
  | healthy (timestamp : Nat)
  /-- `jsonify(\x7b'status': 'unhealthy', 'error': err\x7d)`. -/
  | unhealthy (err : String)
deriving Repr, DecidableEq

/-- Result of a request: HTTP status code, JSON payload, and the store after
the request. -/
structure HResult where
  status : Nat
  body : Payload
  store : Store
deriving Repr, DecidableEq

/-- Body of the `try` block of `create_task` (app.py lines 83-99).
`if not data or 'title' not in data` returns 400 (note Python `not data` is
true both for `None` and for the empty dict); otherwise a `Task` is built with
`data['title']`, `data.get('description', '')`, `data.get('status', 'pending')`,
the store assigns the id and the creation timestamps, and commit either raises
or persists the new row. -/
def create_try (s : Store) (data : Option Body) (now : Nat) (fail : Option String) :
    Except Exc (Nat × Payload × Store) :=
  match data with
  | none => .ok (400, .error "Title is required", s)
  | some d =>
    if d.isEmpty || !(hasKey d "title") then
      .ok (400, .error "Title is required", s)
    else
      let task : Task :=
        { id := s.nextId
          title := (getKey d "title").getD ""
          description := getD d "description" ""
          status := getD d "status" "pending"
          created_at := now
          updated_at := now }
      match fail with
      | some m => .error (.storage m)
      | none => .ok (201, .task task, ⟨s.nextId + 1, s.tasks ++ [task]⟩)

/-- `POST /api/tasks` (app.py lines 80-103): run the `try` block; `except
Exception` rolls back and returns 500 with `jsonify` of the error text. -/
def create_task (s : Store) (data : Option Body) (now : Nat) (fail : Option String) :
    HResult :=
  match create_try s data now fail with
  | .ok (c, p, s2) => ⟨c, p, s2⟩
  | .error e => ⟨500, .error e.toMsg, s⟩

/-- Whether the update produced a net change in some mapped column; SQLAlchemy
emits an UPDATE statement (firing `onupdate`) only in that case. -/
def fieldsChanged (a b : Task) : Bool :=
  a.title != b.title || a.description != b.description || a.status != b.status

/-- Overwrite exactly the fields whose keys are present in the body
(app.py lines 112-117): `if 'title' in data: task.title = data['title']`,
and likewise for `description` and `status`. -/
def applyBody (t : Task) (d : Body) : Task :=
  let t1 := if hasKey d "title" then { t with title := getD d "title" t.title } else t
  let t2 := if hasKey d "description" then
    { t1 with description := getD d "description" t1.description } else t1
  if hasKey d "status" then { t2 with status := getD d "status" t2.status } else t2

/-- Body of the `try` block of `update_task` (app.py lines 108-121).
`get_or_404` raises `NotFound` when the id is absent; `'title' in data` raises
`TypeError` when `get_json` returned `None`; commit either raises the storage
failure or persists the field changes, refreshing `updated_at` only when an
UPDATE is actually emitted (some column had a net change). -/
def update_try (s : Store) (id : Nat) (data : Option Body) (now : Nat)
    (fail : Option String) : Except Exc (Nat × Payload × Store) :=
  match findTask s id with
  | none => .error .notFound
  | some task =>
    match data with
    | none => .error .badBodyType
    | some d =>
      let task2 := applyBody task d
      match fail with
      | some m => .error (.storage m)
      | none =>
        let task3 := if fieldsChanged task task2 then
          { task2 with updated_at := now } else task2
        .ok (200, .task task3, replaceTask s task3)

/-- `PUT /api/tasks/(task_id)` (app.py lines 105-125): run the `try` block;
`except Exception` catches every raised exception — including the `NotFound`
of `get_or_404` — rolls back, and returns 500 with the error text. -/
def update_task (s : Store) (id : Nat) (data : Option Body) (now : Nat)
    (fail : Option String) : HResult :=
  match update_try s id data now fail with
  | .ok (c, p, s2) => ⟨c, p, s2⟩
  | .error e => ⟨500, .error e.toMsg, s⟩

/-- Body of the `try` block of `delete_task` (app.py lines 130-135). -/
def delete_try (s : Store) (id : Nat) (fail : Option String) :
    Except Exc (Nat × Payload × Store) :=
  match findTask s id with
  | none => .error .notFound
  | some _ =>
    match fail with
    | some m => .error (.storage m)
    | none =>
      .ok (200, .message "Task deleted successfully",
        { s with tasks := s.tasks.filter (fun u => u.id != id) })

/-- `DELETE /api/tasks/(task_id)` (app.py lines 127-139): run the `try` block;
`except Exception` catches every raised exception — including the `NotFound`
of `get_or_404` — rolls back, and returns 500 with the error text. -/
def delete_task (s : Store) (id : Nat) (fail : Option String) : HResult :=
  match delete_try s id fail with
  | .ok (c, p, s2) => ⟨c, p, s2⟩
  | .error e => ⟨500, .error e.toMsg, s⟩

/-- `GET /api/tasks/(task_id)` (app.py lines 74-78): no `try`, so the
`NotFound` of `get_or_404` propagates to the framework, which renders 404. -/
def get_task (s : Store) (id : Nat) : HResult :=
  match findTask s id with
  | some t => ⟨200, .task t, s⟩
  | none => ⟨404, .error Exc.notFound.toMsg, s⟩

/-- `GET /api/tasks` (app.py lines 64-72): list all rows, 500 on a storage
error during the query. -/
def get_tasks (s : Store) (fail : Option String) : HResult :=
  match fail with
  | some m => ⟨500, .error m, s⟩
  | none => ⟨200, .tasks s.tasks, s⟩

/-- `GET /health` (app.py lines 48-57): the probe `db.session.execute` either
succeeds (`probe = none`) or raises with message `e` (`probe = some e`);
the `try` converts success to 200 and failure to 503. -/
def health_check (probe : Option String) (now : Nat) : Nat × Payload :=
  match probe with
  | none => (200, .healthy now)
  | some e => (503, .unhealthy e)

/-- One mutating request, for reasoning about sequences of operations. -/
inductive Op
  | createOp (data : Option Body) (fail : Option String)
  | updateOp (id : Nat) (data : Option Body) (fail : Option String)
  | deleteOp (id : Nat) (fail : Option String)
deriving Repr

/-- The store after serving one request at clock time `now`. -/
def applyOp (s : Store) (now : Nat) : Op → Store
  | .createOp data fail => (create_task s data now fail).store
  | .updateOp id data fail => (update_task s id data now fail).store
  | .deleteOp id fail => (delete_task s id fail).store

/-- Stores reachable from a fresh database by serving requests with a
monotone clock; the `Nat` component is the clock reading of the last request. -/
inductive Reachable : Store → Nat → Prop
  | init : Reachable initStore 0
  | step {s c now op} : Reachable s c → c ≤ now →
      Reachable (applyOp s now op) now

/-- Store invariant carried through every request: primary keys are unique and
below the sequence value, the sequence is positive, and every row's timestamps
satisfy `created_at ≤ updated_at ≤ clock`. -/
def Inv (s : Store) (c : Nat) : Prop :=
  (s.tasks.map Task.id).Nodup ∧ 0 < s.nextId ∧
    ∀ t ∈ s.tasks, t.id < s.nextId ∧ t.created_at ≤ t.updated_at ∧ t.updated_at ≤ c

/-- The guard condition of `create_task`, i.e. Python
`not data or 'title' not in data`: the body is missing, the JSON object is
empty, or the `title` key is absent. -/
def missingTitle : Option Body → Bool
  | none => true
  | some d => d.isEmpty || !(hasKey d "title")

/-- A sample row: the task created by `POST /api/tasks` with body
`(title: A)` against a fresh store at clock time 0. -/
def t1 : Task := ⟨1, "A", "", "pending", 0, 0⟩

/-- A sample store holding exactly the row `t1`, with the identity sequence
at 2. -/
def s1 : Store := ⟨2, [t1]⟩

/-- Python substring containment, `needle in hay` for strings: some window of
`hay` of the length of `needle` equals `needle`. -/
def strContains (hay needle : String) : Bool :=
  (List.range (hay.length + 1)).any
    (fun i => ((hay.drop i).take needle.length) == needle)

/-- A parseable JSON request body, as returned by `request.get_json()`: a
dict (the object case used throughout), or the non-object shapes a client
may also send — a list, a string, or an int.  A JSON `null` body makes
`get_json` return `None`, which is the `none` case of the handler's
`Option Json` argument; a bool body behaves like the int case (`in` raises
`TypeError` on both). -/
inductive Json
  | obj (d : Body)
  | arr (xs : List Json)
  | str (s : String)
  | num (n : Int)

/-- Python equality-based membership of the string `k` in a list of JSON
values: true exactly when some element is the string `k` (comparing `k` with
a non-string element yields `False`, never an error). -/
def pyListContains (xs : List Json) (k : String) : Bool :=
  xs.any fun j => match j with | .str s2 => s2 == k | _ => false

/-- Python membership `k in data` for each body shape: key membership on a
dict, element equality on a list, substring containment on a string; an int
is not iterable, so `in` raises `TypeError`. -/
def Json.contains : Json → String → Except Exc Bool
  | .obj d, k => .ok (hasKey d k)
  | .arr xs, k => .ok (pyListContains xs k)
  | .str s2, k => .ok (strContains s2 k)
  | .num _, _ => .error .intNotIterable

/-- Python indexing `data[k]` with a string key for each body shape: value
lookup on a dict (only reached after a successful membership test, so the
default is immaterial); a `TypeError` on a list, a string, or an int. -/
def Json.getItem : Json → String → Except Exc String
  | .obj d, k => .ok (getD d k "")
  | .arr _, _ => .error .listIndexStr
  | .str _, _ => .error .strIndexStr
  | .num _, _ => .error .intNotSubscriptable

/-- The field-assignment sequence of `update_task` (app.py lines 112-117)
over a full JSON body: each `if k in data: task.k = data[k]` first runs the
membership test and then, when it succeeds, the indexing, either of which
may raise depending on the body shape. -/
def applyJson (t : Task) (j : Json) : Except Exc Task :=
  match j.contains "title" with
  | .error e => .error e
  | .ok b1 =>
    let r1 : Except Exc Task :=
      if b1 then
        match j.getItem "title" with
        | .error e => .error e
        | .ok v => .ok { t with title := v }
      else .ok t
    match r1 with
    | .error e => .error e
    | .ok t1 =>
      match j.contains "description" with
      | .error e => .error e
      | .ok b2 =>
        let r2 : Except Exc Task :=
          if b2 then
            match j.getItem "description" with
            | .error e => .error e
            | .ok v => .ok { t1 with description := v }
          else .ok t1
        match r2 with
        | .error e => .error e
        | .ok t2 =>
          match j.contains "status" with
          | .error e => .error e
          | .ok b3 =>
            if b3 then
              match j.getItem "status" with
              | .error e => .error e
              | .ok v => .ok { t2 with status := v }
            else .ok t2

/-- Body of the `try` block of `update_task` over the full JSON body domain:
like `update_try`, but the field-assignment sequence runs Python membership
and indexing on whatever shape `get_json` returned.  Restricted to a missing
body or an object body, it coincides with `update_try` (theorems
`update_task_json_none` and `update_task_json_obj`). -/
def update_try_json (s : Store) (i : Nat) (data : Option Json) (now : Nat)
    (fail : Option String) : Except Exc (Nat × Payload × Store) :=
  match findTask s i with
  | none => .error .notFound
  | some task =>
    match data with
    | none => .error .badBodyType
    | some j =>
      match applyJson task j with
      | .error e => .error e
      | .ok task2 =>
        match fail with
        | some m => .error (.storage m)
        | none =>
          let task3 := if fieldsChanged task task2 then
            { task2 with updated_at := now } else task2
          .ok (200, .task task3, replaceTask s task3)

/-- `PUT /api/tasks/(task_id)` over the full JSON body domain: run the `try`
block; `except Exception` catches every raised exception and returns 500
with the error text. -/
def update_task_json (s : Store) (i : Nat) (data : Option Json) (now : Nat)
    (fail : Option String) : HResult :=
  match update_try_json s i data now fail with
  | .ok (c, p, s2) => ⟨c, p, s2⟩
  | .error e => ⟨500, .error e.toMsg, s⟩

/-! Helper lemmas about body lookups and the store. -/

theorem hasKey_cons (p : String × String) (rest : Body) (k : String) :
    hasKey (p :: rest) k = ((p.1 == k) || hasKey rest k) := rfl

theorem getKey_cons (p : String × String) (rest : Body) (k : String) :
    getKey (p :: rest) k = if p.1 == k then some p.2 else getKey rest k := by
  simp only [getKey, List.find?]
  cases h : (p.1 == k) <;> simp [h]

theorem hasKey_eq_isSome_getKey (d : Body) (k : String) :
    hasKey d k = (getKey d k).isSome := by
  induction d with
  | nil => rfl
  | cons p rest ih =>
    rw [hasKey_cons, getKey_cons]
    cases h : (p.1 == k) <;> simp [h, ih]

theorem hasKey_cons_of_ne {k q : String} (v : String) (d : Body)
    (h : (q == k) = false) : hasKey ((q, v) :: d) k = hasKey d k := by
  rw [hasKey_cons]
  simp [h]

theorem getKey_cons_of_ne {k q : String} (v : String) (d : Body)
    (h : (q == k) = false) : getKey ((q, v) :: d) k = getKey d k := by
  rw [getKey_cons]
  simp [h]

theorem map_eq_self_of_fix {α : Type} {f : α → α} {l : List α}
    (h : ∀ a ∈ l, f a = a) : l.map f = l := by
  induction l with
  | nil => rfl
  | cons a l ih =>
    simp only [List.map_cons, h a (List.mem_cons_self a l), List.cons.injEq,
      true_and]
    exact ih fun b hb => h b (List.mem_cons_of_mem a hb)

theorem findTask_mem {s : Store} {id : Nat} {t : Task}
    (h : findTask s id = some t) : t ∈ s.tasks :=
  List.mem_of_find?_eq_some h

theorem findTask_id {s : Store} {id : Nat} {t : Task}
    (h : findTask s id = some t) : t.id = id := by
  have := List.find?_some h
  simpa using this

theorem unique_id_eq {s : Store} (huniq : (s.tasks.map Task.id).Nodup)
    {u t : Task} (hu : u ∈ s.tasks) (ht : t ∈ s.tasks) (hid : u.id = t.id) :
    u = t :=
  List.inj_on_of_nodup_map huniq hu ht hid

theorem replaceTask_self {s : Store} {i : Nat} {t : Task}
    (huniq : (s.tasks.map Task.id).Nodup) (h : findTask s i = some t) :
    replaceTask s t = s := by
  have ht := findTask_mem h
  cases s with
  | mk nid ts =>
    simp only [replaceTask, Store.mk.injEq, true_and]
    apply map_eq_self_of_fix
    intro u hu
    by_cases hid : u.id = t.id
    · have heq : u = t := unique_id_eq huniq hu ht hid
      simp [heq]
    · have hb : (u.id == t.id) = false := by simpa using hid
      simp [hb]

theorem applyBody_noop {t : Task} {d : Body}
    (h1 : hasKey d "title" = false) (h2 : hasKey d "description" = false)
    (h3 : hasKey d "status" = false) : applyBody t d = t := by
  simp [applyBody, h1, h2, h3]

theorem fieldsChanged_self (t : Task) : fieldsChanged t t = false := by
  simp [fieldsChanged]

theorem applyBody_eq (t : Task) (d : Body) :
    applyBody t d =
      ⟨t.id,
       if hasKey d "title" then getD d "title" t.title else t.title,
       if hasKey d "description" then getD d "description" t.description
         else t.description,
       if hasKey d "status" then getD d "status" t.status else t.status,
       t.created_at, t.updated_at⟩ := by
  simp only [applyBody]
  by_cases a1 : hasKey d "title" = true <;>
    by_cases a2 : hasKey d "description" = true <;>
      by_cases a3 : hasKey d "status" = true <;>
        simp [a1, a2, a3]

theorem getD_congr {d : Body} {k : String} (x y : String)
    (hk : hasKey d k = true) : getD d k x = getD d k y := by
  rw [hasKey_eq_isSome_getKey] at hk
  rcases hg : getKey d k with _ | v
  · rw [hg] at hk; simp at hk
  · simp [getD, hg]

theorem applyBody_eq2 (t : Task) (d : Body) :
    applyBody t d =
      ⟨t.id,
       if hasKey d "title" then getD d "title" "" else t.title,
       if hasKey d "description" then getD d "description" ""
         else t.description,
       if hasKey d "status" then getD d "status" "" else t.status,
       t.created_at, t.updated_at⟩ := by
  rw [applyBody_eq]
  simp only [Task.mk.injEq, true_and, and_true]
  refine ⟨?_, ?_, ?_⟩
  · by_cases a : hasKey d "title" = true
    · simp only [a, if_true]; exact getD_congr t.title "" a
    · simp [a]
  · by_cases a : hasKey d "description" = true
    · simp only [a, if_true]; exact getD_congr t.description "" a
    · simp [a]
  · by_cases a : hasKey d "status" = true
    · simp only [a, if_true]; exact getD_congr t.status "" a
    · simp [a]

theorem applyJson_obj (t : Task) (d : Body) :
    applyJson t (.obj d) = .ok (applyBody t d) := by
  simp only [applyJson, Json.contains, Json.getItem]
  rw [applyBody_eq2]
  by_cases a1 : hasKey d "title" = true <;>
    by_cases a2 : hasKey d "description" = true <;>
      by_cases a3 : hasKey d "status" = true <;>
        simp [a1, a2, a3]

theorem update_task_json_none (s : Store) (i : Nat) (now : Nat)
    (fail : Option String) :
    update_task_json s i none now fail = update_task s i none now fail := by
  cases hf : findTask s i <;>
    simp [update_task_json, update_try_json, update_task, update_try, hf]

theorem update_task_json_obj (s : Store) (i : Nat) (d : Body) (now : Nat)
    (fail : Option String) :
    update_task_json s i (some (.obj d)) now fail =
      update_task s i (some d) now fail := by
  cases hf : findTask s i with
  | none => simp [update_task_json, update_try_json, update_task, update_try, hf]
  | some t =>
    simp [update_task_json, update_try_json, update_task, update_try, hf,
      applyJson_obj]

/-! Claim theorems. -/

/-- Claim C1: the spec says PUT and DELETE on an absent id return 404, and
that a repeated DELETE returns 404 both times.  In the code the `NotFound`
raised by `Task.query.get_or_404` is a subclass of `Exception`, so the
blanket `except Exception` of `update_task` and `delete_task` catches it,
rolls back, and returns 500 instead of 404.  At the failing input (id 7,
absent from the store) both handlers return 500, the store is unchanged, and
a repeated DELETE returns 500 again without crashing; by contrast `get_task`,
which has no `try` block, lets the framework render the intended 404. -/
theorem C1_absent_id_put_delete_return_500 :
    (update_task initStore 7 (some [("status", "done")]) 1 none).status = 500 ∧
    (delete_task initStore 7 none).status = 500 ∧
    (delete_task initStore 7 none).store = initStore ∧
    (delete_task (delete_task initStore 7 none).store 7 none).status = 500 ∧
    (get_task initStore 7).status = 404 := by
  decide

/-- Claim C2, counterexample: a PUT on the existing task `t1` whose body has
no recognized key does return 200, but it does NOT refresh `updated_at`: no
column has a net change, so SQLAlchemy emits no UPDATE and `onupdate` never
fires.  At clock time 10 the returned task still carries `updated_at = 0`,
and the store is exactly the pre-request store. -/
theorem C2_noop_put_does_not_refresh :
    update_task s1 1 (some [("priority", "high")]) 10 none =
      ⟨200, Payload.task t1, s1⟩ ∧
    t1.updated_at = 0 ∧ (0 : Nat) ≠ 10 := by
  decide

/-- Claim C2, amended: a PUT on an existing task whose body contains none of
the recognized keys (`title`, `description`, `status`) is a no-op returning
200 with the stored task, and it leaves every stored field — including
`updated_at` — unchanged: with no net column change no UPDATE statement is
emitted, so the `onupdate` refresh of `updated_at` does not fire. -/
theorem C2_noop_put_returns_200_unchanged {s : Store} {i : Nat} {t : Task}
    {d : Body} (now : Nat)
    (huniq : (s.tasks.map Task.id).Nodup)
    (hfind : findTask s i = some t)
    (h1 : hasKey d "title" = false) (h2 : hasKey d "description" = false)
    (h3 : hasKey d "status" = false) :
    update_task s i (some d) now none = ⟨200, Payload.task t, s⟩ := by
  have hab : applyBody t d = t := applyBody_noop h1 h2 h3
  simp [update_task, update_try, hfind, hab, fieldsChanged_self,
    replaceTask_self huniq hfind]

/-- Claim C2, witness: the amended no-op theorem at the sample store. -/
theorem C2_noop_put_returns_200_unchanged_witness :
    update_task s1 1 (some [("x", "y")]) 7 none = ⟨200, Payload.task t1, s1⟩ :=
  @C2_noop_put_returns_200_unchanged s1 1 t1 [("x", "y")] 7 (by decide)
    (by decide) (by decide) (by decide) (by decide)

/-- Claim C6: partial-update semantics.  First part (frame, any body): a key
absent from the body leaves the corresponding stored field unchanged, a key
present overwrites it with the body's value, and `id`, `created_at`,
`updated_at` are never touched by the field-assignment loop.  Second part:
updating only `status` on an existing task returns 200 with a task whose
`title`, `description` and `created_at` are unchanged, whose `status` is the
body's value, and whose `updated_at` is at least the previous `updated_at`
(equal when the status value is unchanged, the request clock time when it
changed), given a monotone clock. -/
theorem C6_partial_update_frame :
    (∀ (t : Task) (d : Body),
      (hasKey d "title" = false → (applyBody t d).title = t.title) ∧
      (hasKey d "description" = false →
        (applyBody t d).description = t.description) ∧
      (hasKey d "status" = false → (applyBody t d).status = t.status) ∧
      (∀ v, getKey d "title" = some v → (applyBody t d).title = v) ∧
      (∀ v, getKey d "description" = some v →
        (applyBody t d).description = v) ∧
      (∀ v, getKey d "status" = some v → (applyBody t d).status = v) ∧
      (applyBody t d).id = t.id ∧
      (applyBody t d).created_at = t.created_at ∧
      (applyBody t d).updated_at = t.updated_at) ∧
    (∀ (s : Store) (i : Nat) (t : Task) (d : Body) (now : Nat) (v : String),
      findTask s i = some t →
      hasKey d "title" = false → hasKey d "description" = false →
      getKey d "status" = some v →
      t.updated_at ≤ now →
      ∃ t2 : Task, update_task s i (some d) now none =
          ⟨200, Payload.task t2, replaceTask s t2⟩ ∧
        t2.title = t.title ∧ t2.description = t.description ∧ t2.status = v ∧
        t2.created_at = t.created_at ∧ t.updated_at ≤ t2.updated_at) := by
  constructor
  · intro t d
    refine ⟨?_, ?_, ?_, ?_, ?_, ?_, ?_, ?_, ?_⟩ <;>
      simp only [applyBody_eq]
    · intro h; simp [h]
    · intro h; simp [h]
    · intro h; simp [h]
    · intro v hv
      have hk : hasKey d "title" = true := by
        rw [hasKey_eq_isSome_getKey, hv]; rfl
      simp [hk, getD, hv]
    · intro v hv
      have hk : hasKey d "description" = true := by
        rw [hasKey_eq_isSome_getKey, hv]; rfl
      simp [hk, getD, hv]
    · intro v hv
      have hk : hasKey d "status" = true := by
        rw [hasKey_eq_isSome_getKey, hv]; rfl
      simp [hk, getD, hv]
  · intro s i t d now v hfind h1 h2 hv hmono
    have h3 : hasKey d "status" = true := by
      rw [hasKey_eq_isSome_getKey, hv]; rfl
    have happ : applyBody t d =
        ⟨t.id, t.title, t.description, v, t.created_at, t.updated_at⟩ := by
      rw [applyBody_eq]
      simp [h1, h2, h3, getD, hv]
    by_cases hsv : t.status = v
    · have happ2 : applyBody t d = t := by
        rw [happ, ← hsv]

      refine ⟨t, ?_, rfl, rfl, hsv, rfl, Nat.le_refl _⟩
      simp [update_task, update_try, hfind, happ2, fieldsChanged_self]
    · have hch : fieldsChanged t (applyBody t d) = true := by
        rw [happ]
        simp [fieldsChanged, bne_iff_ne]
        exact hsv
      rw [happ] at hch
      refine ⟨⟨t.id, t.title, t.description, v, t.created_at, now⟩, ?_, rfl,
        rfl, rfl, rfl, hmono⟩
      simp [update_task, update_try, hfind, happ, hch]

/-- Claim C6, witness: updating only `status` on the sample store returns
200. -/
theorem C6_partial_update_frame_witness :
    (update_task s1 1 (some [("status", "done")]) 5 none).status = 200 := by
  obtain ⟨t2, heq, -, -, -, -, -⟩ :=
    C6_partial_update_frame.2 s1 1 t1 [("status", "done")] 5 "done" (by decide)
      (by decide) (by decide) (by decide) (by decide)
  rw [heq]

/-- Claim C3, counterexample: a POST body whose `title` key is present but
maps to the empty string passes the guard `not data or 'title' not in data`,
so the handler returns 201 and inserts a row — not the 400 the claim states
for an empty title. -/
theorem C3_empty_title_creates_row :
    (create_task initStore (some [("title", "")]) 0 none).status = 201 ∧
    (create_task initStore (some [("title", "")]) 0 none).store.tasks.length =
      initStore.tasks.length + 1 := by
  decide

/-- Claim C3, amended: POST returns 400 exactly when the body is missing, is
an empty JSON object, or lacks the `title` key; in that case no row is
created (the store is returned unchanged, so a subsequent list request
reports the same rows).  An empty `title` string value is not rejected. -/
theorem C3_validation_no_row (s : Store) (data : Option Body) (now : Nat)
    (fail : Option String) :
    ((create_task s data now fail).status = 400 ↔ missingTitle data = true) ∧
    (missingTitle data = true →
      create_task s data now fail = ⟨400, Payload.error "Title is required", s⟩) ∧
    (missingTitle data = true →
      (get_tasks (create_task s data now fail).store none).body =
        Payload.tasks s.tasks) := by
  cases data with
  | none => simp [create_task, create_try, missingTitle, get_tasks]
  | some d =>
    by_cases hguard : (d.isEmpty || !(hasKey d "title")) = true
    · simp [create_task, create_try, missingTitle, hguard, get_tasks]
    · cases fail with
      | none => simp [create_task, create_try, missingTitle, hguard, get_tasks]
      | some m =>
        simp [create_task, create_try, missingTitle, hguard, get_tasks, Exc.toMsg]

/-- Claim C3, witness: the amended theorem applied to a missing body. -/
theorem C3_validation_no_row_witness :
    create_task initStore none 0 none =
      ⟨400, Payload.error "Title is required", initStore⟩ :=
  (C3_validation_no_row initStore none 0 none).2.1 rfl

/-- Claim C4: a storage exception at commit during create, update or delete is
caught by `except Exception`, `db.session.rollback()` restores the
pre-request store, and the handler returns 500 with the error text as JSON;
the handler itself always returns a response, so no storage exception
escapes. -/
theorem C4_storage_error_rollback (s : Store) (m : String) :
    (∀ (d : Body) (now : Nat), hasKey d "title" = true →
      create_task s (some d) now (some m) = ⟨500, Payload.error m, s⟩) ∧
    (∀ (id : Nat) (t : Task) (d : Body) (now : Nat), findTask s id = some t →
      update_task s id (some d) now (some m) = ⟨500, Payload.error m, s⟩) ∧
    (∀ (id : Nat) (t : Task), findTask s id = some t →
      delete_task s id (some m) = ⟨500, Payload.error m, s⟩) := by
  refine ⟨?_, ?_, ?_⟩
  · intro d now ht
    have hne : d.isEmpty = false := by
      cases d with
      | nil => simp [hasKey] at ht
      | cons q r => rfl
    simp [create_task, create_try, ht, hne, Exc.toMsg]
  · intro id t d now h
    simp [update_task, update_try, h, Exc.toMsg]
  · intro id t h
    simp [delete_task, delete_try, h, Exc.toMsg]

/-- Claim C4, witness: the rollback theorem at a concrete store, body and
error message, for each of the three handlers. -/
theorem C4_storage_error_rollback_witness :
    create_task s1 (some [("title", "B")]) 5 (some "db error") =
      ⟨500, Payload.error "db error", s1⟩ ∧
    update_task s1 1 (some [("status", "done")]) 5 (some "db error") =
      ⟨500, Payload.error "db error", s1⟩ ∧
    delete_task s1 1 (some "db error") = ⟨500, Payload.error "db error", s1⟩ :=
  ⟨(C4_storage_error_rollback s1 "db error").1 [("title", "B")] 5 (by decide),
   (C4_storage_error_rollback s1 "db error").2.1 1 t1 [("status", "done")] 5
     (by decide),
   (C4_storage_error_rollback s1 "db error").2.2 1 t1 (by decide)⟩

/-- Claim C5: POST with body `(title: A)` returns 201; the created task gets
the store-assigned id `s.nextId` (positive, since serial sequences start at
1), the default empty description, the default status `pending`, and equal
creation and update timestamps. -/
theorem C5_create_title_A {s : Store} (now : Nat) (h : 0 < s.nextId) :
    ∃ t : Task,
      create_task s (some [("title", "A")]) now none =
        ⟨201, Payload.task t, ⟨s.nextId + 1, s.tasks ++ [t]⟩⟩ ∧
      0 < t.id ∧ t.description = "" ∧ t.status = "pending" ∧
      t.created_at = t.updated_at :=
  ⟨⟨s.nextId, "A", "", "pending", now, now⟩, rfl, h, rfl, rfl, rfl⟩

/-- Claim C5, witness: the creation theorem at the fresh store. -/
theorem C5_create_title_A_witness :
    0 < initStore.nextId ∧
    (create_task initStore (some [("title", "A")]) 0 none).status = 201 := by
  refine ⟨by decide, ?_⟩
  obtain ⟨t, heq, -⟩ := @C5_create_title_A initStore 0 (by decide)
  rw [heq]

/-- Claim C8: `GET /health` returns 200 with the healthy payload exactly when
the connectivity probe succeeds, and 503 with the unhealthy payload carrying
the error text when it fails; the handler is a total function, so a probe
failure never escapes as an exception. -/
theorem C8_health_probe (probe : Option String) (now : Nat) :
    (health_check probe now = (200, Payload.healthy now) ↔ probe = none) ∧
    (∀ e, probe = some e → health_check probe now = (503, Payload.unhealthy e)) := by
  cases probe <;> simp [health_check]

/-- Claim C8, witness: the health theorem at a succeeding and at a failing
probe. -/
theorem C8_health_probe_witness :
    health_check none 5 = (200, Payload.healthy 5) ∧
    health_check (some "db down") 5 = (503, Payload.unhealthy "db down") :=
  ⟨(C8_health_probe none 5).1.mpr rfl,
   (C8_health_probe (some "db down") 5).2 "db down" rfl⟩

/-- Claim C9, counterexample: a PUT on the existing task `t1` with the
non-object JSON body `[]` or `"abc"` returns 200, not the claimed 500.
Python membership `k in data` on a list or a string is an ordinary
raising-free test, here simply `False` for every recognized key, so no field
is assigned and the request completes as a successful no-op update. -/
theorem C9_nonobject_body_returns_200 :
    update_task_json s1 1 (some (Json.arr [])) 9 none =
      ⟨200, Payload.task t1, s1⟩ ∧
    update_task_json s1 1 (some (Json.str "abc")) 9 none =
      ⟨200, Payload.task t1, s1⟩ ∧
    (200 : Nat) ≠ 500 := by
  decide

/-- Claim C9, amended: a PUT on an existing task with no parseable JSON body
returns 500 (membership on `None` raises `TypeError`, which
`except Exception` converts to a storage-error response), never 200 or 400,
leaving the store unchanged.  A non-object JSON body, however, need not give
500: membership on a list or string raises nothing, so a list with no string
element equal to a recognized key, or a string not containing a recognized
key as a substring, matches no key and the request completes as a no-op
update returning 200 with the unchanged task; a list whose membership test
does succeed (an element equal to `title`) still yields 500, from the
`TypeError` of indexing the list with a string key. -/
theorem C9_put_nonobject_body {s : Store} {i : Nat} {t : Task} (now : Nat)
    (fail : Option String)
    (huniq : (s.tasks.map Task.id).Nodup)
    (hfind : findTask s i = some t) :
    (update_task_json s i none now fail =
      ⟨500, Payload.error Exc.badBodyType.toMsg, s⟩ ∧
      (update_task_json s i none now fail).status ≠ 200 ∧
      (update_task_json s i none now fail).status ≠ 400) ∧
    (∀ xs : List Json,
      pyListContains xs "title" = false →
      pyListContains xs "description" = false →
      pyListContains xs "status" = false →
      update_task_json s i (some (.arr xs)) now none =
        ⟨200, Payload.task t, s⟩) ∧
    (∀ s2 : String,
      strContains s2 "title" = false →
      strContains s2 "description" = false →
      strContains s2 "status" = false →
      update_task_json s i (some (.str s2)) now none =
        ⟨200, Payload.task t, s⟩) ∧
    (∀ xs : List Json,
      pyListContains xs "title" = true →
      update_task_json s i (some (.arr xs)) now fail =
        ⟨500, Payload.error Exc.listIndexStr.toMsg, s⟩) := by
  refine ⟨?_, ?_, ?_, ?_⟩
  · have heq : update_task_json s i none now fail =
        ⟨500, Payload.error Exc.badBodyType.toMsg, s⟩ := by
      simp [update_task_json, update_try_json, hfind]
    exact ⟨heq, by simp [heq], by simp [heq]⟩
  · intro xs h1 h2 h3
    have happ : applyJson t (.arr xs) = .ok t := by
      simp [applyJson, Json.contains, h1, h2, h3]
    simp [update_task_json, update_try_json, hfind, happ, fieldsChanged_self,
      replaceTask_self huniq hfind]
  · intro s2 h1 h2 h3
    have happ : applyJson t (.str s2) = .ok t := by
      simp [applyJson, Json.contains, h1, h2, h3]
    simp [update_task_json, update_try_json, hfind, happ, fieldsChanged_self,
      replaceTask_self huniq hfind]
  · intro xs h1
    have happ : applyJson t (.arr xs) = .error Exc.listIndexStr := by
      simp [applyJson, Json.contains, Json.getItem, h1]
    simp [update_task_json, update_try_json, hfind, happ]

/-- Claim C9, witness: the amended theorem at the sample store, covering the
missing-body 500, a harmless non-object list and string body (200), and a
list body containing the string `title` (500). -/
theorem C9_put_nonobject_body_witness :
    update_task_json s1 1 none 3 none =
      ⟨500, Payload.error Exc.badBodyType.toMsg, s1⟩ ∧
    update_task_json s1 1 (some (Json.arr [Json.num 7])) 3 none =
      ⟨200, Payload.task t1, s1⟩ ∧
    update_task_json s1 1 (some (Json.str "xy")) 3 none =
      ⟨200, Payload.task t1, s1⟩ ∧
    update_task_json s1 1 (some (Json.arr [Json.str "title"])) 3 none =
      ⟨500, Payload.error Exc.listIndexStr.toMsg, s1⟩ :=
  ⟨(@C9_put_nonobject_body s1 1 t1 3 none (by decide) (by decide)).1.1,
   (@C9_put_nonobject_body s1 1 t1 3 none (by decide) (by decide)).2.1
     [Json.num 7] (by decide) (by decide) (by decide),
   (@C9_put_nonobject_body s1 1 t1 3 none (by decide) (by decide)).2.2.1
     "xy" (by decide) (by decide) (by decide),
   (@C9_put_nonobject_body s1 1 t1 3 none (by decide) (by decide)).2.2.2
     [Json.str "title"] (by decide)⟩

/-- Claim C10: POST reads only the `title`, `description` and `status` keys of
the body: prepending any other key (such as `id`, `created_at` or
`updated_at`) to the body leaves the response and the resulting store
unchanged, and the id of the created task is always the store-assigned
`s.nextId`. -/
theorem C10_create_ignores_unknown_keys :
    (∀ (s : Store) (d : Body) (now : Nat) (fail : Option String) (k v : String),
      k ≠ "title" → k ≠ "description" → k ≠ "status" →
      create_task s (some ((k, v) :: d)) now fail =
        create_task s (some d) now fail) ∧
    (∀ (s : Store) (d : Body) (now : Nat), hasKey d "title" = true →
      ∃ t : Task, (create_task s (some d) now none).body = Payload.task t ∧
        t.id = s.nextId) := by
  constructor
  · intro s d now fail k v hk1 hk2 hk3
    have e1 : (k == "title") = false := beq_eq_false_iff_ne.mpr hk1
    have e2 : (k == "description") = false := beq_eq_false_iff_ne.mpr hk2
    have e3 : (k == "status") = false := beq_eq_false_iff_ne.mpr hk3
    cases d with
    | nil => simp [create_task, create_try, hasKey, e1]
    | cons q r =>
      simp only [create_task, create_try, getD,
        hasKey_cons_of_ne v (q :: r) e1,
        getKey_cons_of_ne v (q :: r) e1,
        getKey_cons_of_ne v (q :: r) e2,
        getKey_cons_of_ne v (q :: r) e3,
        List.isEmpty_cons, Bool.false_or]
  · intro s d now ht
    have hne : d.isEmpty = false := by
      cases d with
      | nil => simp [hasKey] at ht
      | cons q r => rfl
    refine ⟨⟨s.nextId, (getKey d "title").getD "", getD d "description" "",
      getD d "status" "pending", now, now⟩, ?_, rfl⟩
    simp [create_task, create_try, ht, hne]

/-- Claim C10, witness: a client-supplied `id` key in the POST body is
ignored. -/
theorem C10_create_ignores_unknown_keys_witness :
    create_task initStore (some [("id", "99"), ("title", "A")]) 0 none =
      create_task initStore (some [("title", "A")]) 0 none :=
  C10_create_ignores_unknown_keys.1 initStore [("title", "A")] 0 none "id" "99"
    (by decide) (by decide) (by decide)

/-! Machinery for the reachability invariant of claim C7. -/

theorem inv_mono {s : Store} {c c2 : Nat} (h : Inv s c) (hle : c ≤ c2) :
    Inv s c2 :=
  ⟨h.1, h.2.1, fun t ht => ⟨(h.2.2 t ht).1, (h.2.2 t ht).2.1,
    Nat.le_trans (h.2.2 t ht).2.2 hle⟩⟩

theorem create_task_store_cases (s : Store) (data : Option Body) (now : Nat)
    (fail : Option String) :
    (create_task s data now fail).store = s ∨
    ∃ t : Task, t.id = s.nextId ∧ t.created_at = now ∧ t.updated_at = now ∧
      (create_task s data now fail).store = ⟨s.nextId + 1, s.tasks ++ [t]⟩ := by
  cases data with
  | none => left; rfl
  | some d =>
    by_cases hg : (d.isEmpty || !(hasKey d "title")) = true
    · left; simp [create_task, create_try, hg]
    · cases fail with
      | some m => left; simp [create_task, create_try, hg]
      | none =>
        right
        exact ⟨⟨s.nextId, (getKey d "title").getD "", getD d "description" "",
          getD d "status" "pending", now, now⟩, rfl, rfl, rfl,
          by simp [create_task, create_try, hg]⟩

theorem update_task_store_cases (s : Store) (i : Nat) (data : Option Body)
    (now : Nat) (fail : Option String) :
    (update_task s i data now fail).store = s ∨
    ∃ t t3 : Task, findTask s i = some t ∧ t3.id = t.id ∧
      t3.created_at = t.created_at ∧
      (t3.updated_at = now ∨ t3.updated_at = t.updated_at) ∧
      (update_task s i data now fail).store = replaceTask s t3 := by
  cases hf : findTask s i with
  | none => left; simp [update_task, update_try, hf]
  | some t =>
    cases data with
    | none => left; simp [update_task, update_try, hf]
    | some d =>
      cases fail with
      | some m => left; simp [update_task, update_try, hf]
      | none =>
        right
        cases hch : fieldsChanged t (applyBody t d) with
        | true =>
          refine ⟨t, { applyBody t d with updated_at := now }, rfl, ?_, ?_,
            Or.inl rfl, ?_⟩
          · simp [applyBody_eq]
          · simp [applyBody_eq]
          · simp [update_task, update_try, hf, hch]
        | false =>
          refine ⟨t, applyBody t d, rfl, ?_, ?_, Or.inr ?_, ?_⟩
          · simp [applyBody_eq]
          · simp [applyBody_eq]
          · simp [applyBody_eq]
          · simp [update_task, update_try, hf, hch]

theorem delete_task_store_cases (s : Store) (i : Nat) (fail : Option String) :
    (delete_task s i fail).store = s ∨
    (delete_task s i fail).store =
      ⟨s.nextId, s.tasks.filter (fun u => u.id != i)⟩ := by
  cases hf : findTask s i with
  | none => left; simp [delete_task, delete_try, hf]
  | some t =>
    cases fail with
    | some m => left; simp [delete_task, delete_try, hf]
    | none => right; simp [delete_task, delete_try, hf]

theorem inv_create {s : Store} {c now : Nat} (data : Option Body)
    (fail : Option String) (h : Inv s c) (hle : c ≤ now) :
    Inv (create_task s data now fail).store now := by
  rcases create_task_store_cases s data now fail with heq | ⟨t, hid, hc, hu, heq⟩
  · rw [heq]; exact inv_mono h hle
  · rw [heq]
    obtain ⟨hnd, hpos, hall⟩ := h
    refine ⟨?_, Nat.succ_pos _, ?_⟩
    · rw [List.map_append, List.nodup_append]
      refine ⟨hnd, by simp, ?_⟩
      intro a ha hb
      simp only [List.map_cons, List.map_nil, List.mem_singleton] at hb
      obtain ⟨u, hu2, hua⟩ := List.mem_map.mp ha
      have hlt := (hall u hu2).1
      rw [hb, hid] at hua
      omega
    · intro u hu2
      rcases List.mem_append.mp hu2 with hmem | hmem
      · obtain ⟨ha, hb2, hc2⟩ := hall u hmem
        exact ⟨Nat.lt_succ_of_lt ha, hb2, Nat.le_trans hc2 hle⟩
      · rw [List.mem_singleton] at hmem
        rw [hmem, hid, hc, hu]
        exact ⟨Nat.lt_succ_self _, Nat.le_refl _, Nat.le_refl _⟩

theorem inv_update {s : Store} {c now : Nat} (i : Nat) (data : Option Body)
    (fail : Option String) (h : Inv s c) (hle : c ≤ now) :
    Inv (update_task s i data now fail).store now := by
  rcases update_task_store_cases s i data now fail with
    heq | ⟨t, t3, hf, hid, hc, hu, heq⟩
  · rw [heq]; exact inv_mono h hle
  · rw [heq]
    obtain ⟨hnd, hpos, hall⟩ := h
    have ht := findTask_mem hf
    have hmap : (replaceTask s t3).tasks.map Task.id = s.tasks.map Task.id := by
      simp only [replaceTask, List.map_map]
      apply List.map_congr_left
      intro u hu2
      by_cases hb : (u.id == t3.id) = true
      · simp only [Function.comp_apply, hb, if_true]
        exact (eq_of_beq hb).symm
      · have hb2 : ¬u.id = t3.id := by simpa using hb
        simp [Function.comp_apply, hb2]
    refine ⟨by rw [hmap]; exact hnd, hpos, ?_⟩
    intro u hu2
    simp only [replaceTask] at hu2
    obtain ⟨w, hw, hwu⟩ := List.mem_map.mp hu2
    obtain ⟨hta, htb, htc⟩ := hall t ht
    by_cases hb : (w.id == t3.id) = true
    · rw [if_pos hb] at hwu
      subst hwu
      refine ⟨hid ▸ hta, ?_, ?_⟩
      · rcases hu with h5 | h5
        · rw [hc, h5]; exact Nat.le_trans htb (Nat.le_trans htc hle)
        · rw [hc, h5]; exact htb
      · rcases hu with h5 | h5
        · rw [h5]
        · rw [h5]; exact Nat.le_trans htc hle
    · rw [if_neg hb] at hwu
      subst hwu
      obtain ⟨ha, hb2, hc2⟩ := hall w hw
      exact ⟨ha, hb2, Nat.le_trans hc2 hle⟩

theorem inv_delete {s : Store} {c now : Nat} (i : Nat) (fail : Option String)
    (h : Inv s c) (hle : c ≤ now) :
    Inv (delete_task s i fail).store now := by
  rcases delete_task_store_cases s i fail with heq | heq <;> rw [heq]
  · exact inv_mono h hle
  · obtain ⟨hnd, hpos, hall⟩ := h
    refine ⟨?_, hpos, ?_⟩
    · exact List.Nodup.sublist ((List.filter_sublist _).map Task.id) hnd
    · intro u hu
      obtain ⟨ha, hb2, hc2⟩ := hall u (List.mem_of_mem_filter hu)
      exact ⟨ha, hb2, Nat.le_trans hc2 hle⟩

theorem reachable_inv {s : Store} {c : Nat} (h : Reachable s c) : Inv s c := by
  induction h with
  | init =>
    refine ⟨List.nodup_nil, Nat.one_pos, ?_⟩
    intro t ht
    simp [initStore] at ht
  | @step s2 c2 now op hr hle ih =>
    cases op with
    | createOp data fail => exact inv_create data fail ih hle
    | updateOp i data fail => exact inv_update i data fail ih hle
    | deleteOp i fail => exact inv_delete i fail ih hle

/-- Claim C7: over every store reachable from a fresh database by requests
served with a monotone clock, `created_at ≤ updated_at` holds for every row,
and no single further request ever changes the `created_at` of a row that
survives it: a row with the same id before and after the request keeps its
`created_at`, so `created_at` is set once at creation and never modified. -/
theorem C7_created_at_immutable {s : Store} {c : Nat} (h : Reachable s c) :
    (∀ t ∈ s.tasks, t.created_at ≤ t.updated_at) ∧
    (∀ (now : Nat) (op : Op), ∀ t ∈ s.tasks,
      ∀ u ∈ (applyOp s now op).tasks, u.id = t.id →
        u.created_at = t.created_at) := by
  obtain ⟨hnd, hpos, hall⟩ := reachable_inv h
  refine ⟨fun t ht => (hall t ht).2.1, ?_⟩
  intro now op t ht u hu hid
  have huniq : ∀ u2 ∈ s.tasks, u2.id = t.id → u2.created_at = t.created_at :=
    fun u2 hu2 h2 => by rw [unique_id_eq hnd hu2 ht h2]
  cases op with
  | createOp data fail =>
    simp only [applyOp] at hu
    rcases create_task_store_cases s data now fail with heq | ⟨w, hwid, -, -, heq⟩
    · rw [heq] at hu
      exact huniq u hu hid
    · rw [heq] at hu
      rcases List.mem_append.mp hu with hmem | hmem
      · exact huniq u hmem hid
      · rw [List.mem_singleton] at hmem
        have hlt := (hall t ht).1
        rw [hmem, hwid] at hid
        omega
  | updateOp i data fail =>
    simp only [applyOp] at hu
    rcases update_task_store_cases s i data now fail with
      heq | ⟨w, t3, hf, h3id, h3c, -, heq⟩
    · rw [heq] at hu
      exact huniq u hu hid
    · rw [heq] at hu
      simp only [replaceTask] at hu
      obtain ⟨x, hx, hxu⟩ := List.mem_map.mp hu
      by_cases hb : (x.id == t3.id) = true
      · rw [if_pos hb] at hxu
        subst hxu
        have hw := findTask_mem hf
        have hwt : w = t := by
          apply unique_id_eq hnd hw ht
          rw [← h3id, hid]
        rw [h3c, hwt]
      · rw [if_neg hb] at hxu
        subst hxu
        exact huniq x hx hid
  | deleteOp i fail =>
    simp only [applyOp] at hu
    rcases delete_task_store_cases s i fail with heq | heq <;> rw [heq] at hu
    · exact huniq u hu hid
    · exact huniq u (List.mem_of_mem_filter hu) hid

/-- Claim C7, witness: the invariant theorem at the store reached by one
create request. -/
theorem C7_created_at_immutable_witness : t1.created_at ≤ t1.updated_at := by
  have h1 : Reachable s1 0 := by
    have hstep := @Reachable.step initStore 0 0
      (Op.createOp (some [("title", "A")]) none) Reachable.init (Nat.le_refl 0)
    have heq : applyOp initStore 0 (Op.createOp (some [("title", "A")]) none) =
        s1 := by decide
    rw [heq] at hstep
    exact hstep
  exact (C7_created_at_immutable h1).1 t1 (by decide)

end TaskApp
